import Mathlib

/- Shallow embedding of the reporting pipeline of an order-management
backend.  The data model follows src/model.py; the pipeline follows
get_report_overview (lines 36-109) and download_report_excel (lines 112-189)
of src/backend/report.py.

Modelling conventions:
- Decimal amounts (DecimalField(10,2), coerced to float64 by the pipeline)
  are modelled as integers: every property proved here concerns sums and
  order comparisons of exact values, never float rounding.
- Timestamps are modelled as natural numbers already at date granularity:
  the pipeline immediately reduces every timestamp with
  pd.to_datetime(...).dt.date, and only the reduced date is ever used.
- A pandas DataFrame built from an empty list of records has no columns at
  all, so pd.merge(..., left_on = id, right_on = sales_order_id) raises a
  KeyError whenever one of the three collections is empty.  The embedding
  returns Except.error with the name of the missing key in that case.
- groupby(...).agg is modelled per group key; pandas emits the groups
  sorted by key (groupby defaults to sort=True) while the embedding emits
  them in order of first occurrence.  No property below concerns the
  relative order of output rows, so the two orderings are interchangeable;
  per-sale row content and the row multiset are modelled exactly. -/

namespace ReportPipeline

/-- Sales order record (class SalesOrder in src/model.py): natural string
key, customer and product names, quantity, unit price, total amount and a
creation timestamp (modelled at date granularity, see the file header). -/
structure SalesOrder where
  id : String
  customer_name : String
  product_name : String
  quantity : Int
  price_per_unit : Int
  total_amount : Int
  created_at : Nat
deriving DecidableEq

/-- Income order record (class IncomeOrder in src/model.py).  The generated
integer primary key is dropped by the pipeline before merging
(df_income.drop(columns=[id])) and never reaches the output, so it is
omitted here.  sales_order_id is the foreign-key column produced for the
sales_order field by .values(). -/
structure IncomeOrder where
  sales_order_id : String
  bankorbill : String
  amount : Int
  created_at : Nat
  description : Option String
deriving DecidableEq

/-- Invoice order record (class InvoiceOrder in src/model.py); the
generated primary key is dropped before merging exactly as for incomes.
tax_amount is nullable in the model. -/
structure InvoiceOrder where
  sales_order_id : String
  invoice_number : String
  invoice_date : Nat
  amount : Int
  tax_amount : Option Int
  invoice_type : String
  created_at : Nat
deriving DecidableEq

/-- Filter specification (class ReportFilter in src/backend/report.py,
lines 27-33): every field optional, none meaning unset. -/
structure ReportFilter where
  customer_name : Option String
  product_name : Option String
  date_start : Option Nat
  date_end : Option Nat
  min_total_amount : Option Int
  max_total_amount : Option Int
deriving DecidableEq

/-- Filter specification with no fields set. -/
def no_filter : ReportFilter := ⟨none, none, none, none, none, none⟩

/-- Lines 52-53: a Python truthiness test (if filter.customer_name:) guards
an exact-match filter on the customer name, so an empty string behaves like
an unset field. -/
def filter_by_customer_name (f : ReportFilter) (l : List SalesOrder) : List SalesOrder :=
  match f.customer_name with
  | none => l
  | some c => if c = "" then l else l.filter (fun s => s.customer_name = c)

/-- Lines 54-55: exact-match filter on the product name, same truthiness
guard as the customer-name filter. -/
def filter_by_product_name (f : ReportFilter) (l : List SalesOrder) : List SalesOrder :=
  match f.product_name with
  | none => l
  | some p => if p = "" then l else l.filter (fun s => s.product_name = p)

/-- Lines 56-57: keep sales created on or after date_start (date objects
are always truthy, so the filter applies whenever the field is set). -/
def filter_by_date_start (f : ReportFilter) (l : List SalesOrder) : List SalesOrder :=
  match f.date_start with
  | none => l
  | some d => l.filter (fun s => d ≤ s.created_at)

/-- Lines 58-59: keep sales created on or before date_end. -/
def filter_by_date_end (f : ReportFilter) (l : List SalesOrder) : List SalesOrder :=
  match f.date_end with
  | none => l
  | some d => l.filter (fun s => s.created_at ≤ d)

/-- Lines 60-61: keep sales with total_amount at least the minimum (the
code tests is not None, so the bound applies even when it equals zero). -/
def filter_by_min_total (f : ReportFilter) (l : List SalesOrder) : List SalesOrder :=
  match f.min_total_amount with
  | none => l
  | some m => l.filter (fun s => m ≤ s.total_amount)

/-- Lines 62-63: keep sales with total_amount at most the maximum. -/
def filter_by_max_total (f : ReportFilter) (l : List SalesOrder) : List SalesOrder :=
  match f.max_total_amount with
  | none => l
  | some m => l.filter (fun s => s.total_amount ≤ m)

/-- Lines 48-63: the six optional predicates applied to the sales frame in
program order, each a conjunction with the previous ones.  The code guards
the whole block with: if not df_sales.empty; filtering an empty frame
yields an empty frame either way, and when the sales collection itself is
empty the pipeline fails before the filters matter (see
get_report_overview). -/
def apply_filters (f : ReportFilter) (l : List SalesOrder) : List SalesOrder :=
  filter_by_max_total f (filter_by_min_total f (filter_by_date_end f
    (filter_by_date_start f (filter_by_product_name f (filter_by_customer_name f l)))))

/-- One row of df_conbination_2: the originating sale together with the
income and invoice carried by this joined row (none models the NaN padding
of an unmatched left join). -/
structure JoinedRow where
  sale : SalesOrder
  income : Option IncomeOrder
  invoice : Option InvoiceOrder
deriving DecidableEq

/-- Matches of one sale in the income frame, in frame order; how=left
padding yields a single all-null row when there is no match. -/
def income_matches (incomes : List IncomeOrder) (s : SalesOrder) : List (Option IncomeOrder) :=
  let ms := incomes.filter (fun i => i.sales_order_id = s.id)
  if ms.isEmpty then [none] else ms.map some

/-- Matches of one sale in the invoice frame, with the same left-join
padding as income_matches. -/
def invoice_matches (invoices : List InvoiceOrder) (s : SalesOrder) : List (Option InvoiceOrder) :=
  let ms := invoices.filter (fun v => v.sales_order_id = s.id)
  if ms.isEmpty then [none] else ms.map some

/-- Lines 89-91: df_conbination_1 = pd.merge(df_sales, df_income,
left_on=id, right_on=sales_order_id, how=left).  Left rows keep their
order, each expanded by its matches in right-frame order. -/
def merge_sales_income (sales : List SalesOrder) (incomes : List IncomeOrder) :
    List (SalesOrder × Option IncomeOrder) :=
  sales.flatMap (fun s => (income_matches incomes s).map (fun oi => (s, oi)))

/-- Lines 92-94: df_conbination_2 = pd.merge(df_conbination_1, df_invoice,
left_on=id, right_on=sales_order_id, how=left). -/
def merge_with_invoice (rows : List (SalesOrder × Option IncomeOrder))
    (invoices : List InvoiceOrder) : List JoinedRow :=
  rows.flatMap (fun r => (invoice_matches invoices r.1).map (fun ov => ⟨r.1, r.2, ov⟩))

/-- Joined rows of a single sale: its income matches crossed with its
invoice matches.  merge_with_invoice after merge_sales_income decomposes
into one such block per sale (lemma merge_merge_eq_flatMap below). -/
def sale_cross (incomes : List IncomeOrder) (invoices : List InvoiceOrder)
    (s : SalesOrder) : List JoinedRow :=
  (income_matches incomes s).flatMap
    (fun oi => (invoice_matches invoices s).map (fun ov => ⟨s, oi, ov⟩))

/-- One output row of the report: the seven grouping columns followed by
the five aggregated columns, named after the merged-frame columns listed in
the comment at the top of src/backend/report.py (created_at_x is the sale
date, created_at_y the income dates, amount_x the income amounts, amount_y
the invoice amounts). -/
structure ReportRow where
  id : String
  customer_name : String
  product_name : String
  quantity : Int
  price_per_unit : Int
  total_amount : Int
  created_at_x : Nat
  created_at_y : String
  amount_x : Int
  invoice_number : String
  amount_y : Int
  tax_amount : Int
deriving DecidableEq

/-- Lines 97-106, aggregation of one group g (the joined rows of one sale):
created_at_y joins the non-null income dates as strings with a newline;
amount_x sums the income amounts with NaN skipped (an all-NaN or empty
column sums to 0); invoice_number joins the non-null invoice numbers;
amount_y and tax_amount sum the invoice amounts and tax amounts the same
null-safe way. -/
def make_report_row (g : List JoinedRow) (s : SalesOrder) : ReportRow where
  id := s.id
  customer_name := s.customer_name
  product_name := s.product_name
  quantity := s.quantity
  price_per_unit := s.price_per_unit
  total_amount := s.total_amount
  created_at_x := s.created_at
  created_at_y :=
    String.intercalate "\n" (g.filterMap (fun r => r.income.map (fun i => toString i.created_at)))
  amount_x := (g.filterMap (fun r => r.income.map IncomeOrder.amount)).sum
  invoice_number :=
    String.intercalate "\n" (g.filterMap (fun r => r.invoice.map InvoiceOrder.invoice_number))
  amount_y := (g.filterMap (fun r => r.invoice.map InvoiceOrder.amount)).sum
  tax_amount := (g.filterMap (fun r => r.invoice.bind InvoiceOrder.tax_amount)).sum

/-- Group keys of a list in order of first occurrence; seen accumulates the
keys already emitted. -/
def first_occ_aux {α : Type} [DecidableEq α] : List α → List α → List α
  | _, [] => []
  | seen, a :: t => if a ∈ seen then first_occ_aux seen t else a :: first_occ_aux (a :: seen) t

/-- Distinct elements of a list in order of first occurrence. -/
def first_occurrences {α : Type} [DecidableEq α] (l : List α) : List α :=
  first_occ_aux [] l

/-- Lines 97-106: groupby over the seven sale columns (which together are
exactly the sale record) with dropna=False, then agg per group.  Group
content is the sub-list of joined rows carrying that sale. -/
def groupby_agg (rows : List JoinedRow) : List ReportRow :=
  (first_occurrences (rows.map JoinedRow.sale)).map
    (fun s => make_report_row (rows.filter (fun r => r.sale = s)) s)

/-- Grouping columns of an output row, reassembled into the sale record
they came from. -/
def report_row_key (r : ReportRow) : SalesOrder :=
  ⟨r.id, r.customer_name, r.product_name, r.quantity, r.price_per_unit,
    r.total_amount, r.created_at_x⟩

/-- Lines 36-109: the overview endpoint body.  The three collections are
fetched in full; a collection that is empty yields a DataFrame without
columns, so the merges raise a KeyError for the missing join column (left
key id checked for the sales frame, right key sales_order_id for the
income frame in the first merge and the invoice frame in the second);
otherwise the pipeline filters, merges twice, groups and aggregates.
fillna applied to the aggregated frame is the identity here: sums are
never NaN (empty sums are 0.0) and the joined strings are plain strings. -/
def get_report_overview (f : ReportFilter) (sales : List SalesOrder)
    (incomes : List IncomeOrder) (invoices : List InvoiceOrder) :
    Except String (List ReportRow) :=
  if sales.isEmpty then Except.error "KeyError: id"
  else if incomes.isEmpty then Except.error "KeyError: sales_order_id"
  else if invoices.isEmpty then Except.error "KeyError: sales_order_id"
  else
    let df_sales := apply_filters f sales
    let df_conbination_1 := merge_sales_income df_sales incomes
    let df_conbination_2 := merge_with_invoice df_conbination_1 invoices
    Except.ok (groupby_agg df_conbination_2)

/-- Lines 112-176: the download endpoint repeats the overview pipeline
verbatim on the same three collections (fetch, filter block, the two
merges, groupby and agg with the identical aggregation dict) and then
serializes df_bulk.fillna of the same rows to a spreadsheet instead of to
JSON.  This definition is that duplicated row computation; the spreadsheet
serialization itself is outside the data model. -/
def download_report_excel_rows (f : ReportFilter) (sales : List SalesOrder)
    (incomes : List IncomeOrder) (invoices : List InvoiceOrder) :
    Except String (List ReportRow) :=
  if sales.isEmpty then Except.error "KeyError: id"
  else if incomes.isEmpty then Except.error "KeyError: sales_order_id"
  else if invoices.isEmpty then Except.error "KeyError: sales_order_id"
  else
    let df_sales := apply_filters f sales
    let df_conbination_1 := merge_sales_income df_sales incomes
    let df_conbination_2 := merge_with_invoice df_conbination_1 invoices
    Except.ok (groupby_agg df_conbination_2)

/-- Modelled from the spec: the specification describes the income-date
aggregate as the newline-joined string of the DISTINCT non-null row values
in encounter order; the code (line 101) joins the non-null values without
deduplication.  This definition follows the words of the spec, for
comparison with the code behaviour. -/
def distinct_income_dates (g : List JoinedRow) : String :=
  String.intercalate "\n"
    (first_occurrences (g.filterMap (fun r => r.income.map (fun i => toString i.created_at))))

/-- Conjunction of the six filter predicates exactly as the code applies
them: exact string match for customer and product names when set to a
non-empty string (empty strings behave as unset, by Python truthiness),
inclusive bounds for the date range and the total-amount range. -/
def sale_passes_filter (f : ReportFilter) (s : SalesOrder) : Bool :=
  (match f.customer_name with
   | none => true
   | some c => c = "" || s.customer_name = c) &&
  (match f.product_name with
   | none => true
   | some p => p = "" || s.product_name = p) &&
  (match f.date_start with
   | none => true
   | some d => d ≤ s.created_at) &&
  (match f.date_end with
   | none => true
   | some d => s.created_at ≤ d) &&
  (match f.min_total_amount with
   | none => true
   | some m => m ≤ s.total_amount) &&
  (match f.max_total_amount with
   | none => true
   | some m => s.total_amount ≤ m)

/-- Every filter stage returns a sublist of its input frame. -/
theorem filter_by_customer_name_sublist (f : ReportFilter) (l : List SalesOrder) :
    List.Sublist (filter_by_customer_name f l) l := by
  unfold filter_by_customer_name
  cases f.customer_name with
  | none => exact List.Sublist.refl l
  | some c =>
    by_cases hc : c = ""
    · simp [hc]
    · simp only [hc, if_false]
      exact List.filter_sublist l

theorem filter_by_product_name_sublist (f : ReportFilter) (l : List SalesOrder) :
    List.Sublist (filter_by_product_name f l) l := by
  unfold filter_by_product_name
  cases f.product_name with
  | none => exact List.Sublist.refl l
  | some p =>
    by_cases hp : p = ""
    · simp [hp]
    · simp only [hp, if_false]
      exact List.filter_sublist l

theorem filter_by_date_start_sublist (f : ReportFilter) (l : List SalesOrder) :
    List.Sublist (filter_by_date_start f l) l := by
  unfold filter_by_date_start
  cases f.date_start with
  | none => exact List.Sublist.refl l
  | some d => exact List.filter_sublist l

theorem filter_by_date_end_sublist (f : ReportFilter) (l : List SalesOrder) :
    List.Sublist (filter_by_date_end f l) l := by
  unfold filter_by_date_end
  cases f.date_end with
  | none => exact List.Sublist.refl l
  | some d => exact List.filter_sublist l

theorem filter_by_min_total_sublist (f : ReportFilter) (l : List SalesOrder) :
    List.Sublist (filter_by_min_total f l) l := by
  unfold filter_by_min_total
  cases f.min_total_amount with
  | none => exact List.Sublist.refl l
  | some m => exact List.filter_sublist l

theorem filter_by_max_total_sublist (f : ReportFilter) (l : List SalesOrder) :
    List.Sublist (filter_by_max_total f l) l := by
  unfold filter_by_max_total
  cases f.max_total_amount with
  | none => exact List.Sublist.refl l
  | some m => exact List.filter_sublist l

/-- The filtered sales frame is a sublist of the sales collection. -/
theorem apply_filters_sublist (f : ReportFilter) (l : List SalesOrder) :
    List.Sublist (apply_filters f l) l :=
  ((((((filter_by_max_total_sublist f _).trans
    (filter_by_min_total_sublist f _)).trans
    (filter_by_date_end_sublist f _)).trans
    (filter_by_date_start_sublist f _)).trans
    (filter_by_product_name_sublist f _)).trans
    (filter_by_customer_name_sublist f l))

/-- With no filter fields set, every filter stage is the identity. -/
theorem apply_filters_no_filter (l : List SalesOrder) :
    apply_filters no_filter l = l := rfl

/-- Membership in a filter stage implies membership in its input together
with the corresponding predicate of sale_passes_filter. -/
theorem mem_filter_by_customer_name {f : ReportFilter} {l : List SalesOrder} {s : SalesOrder}
    (h : s ∈ filter_by_customer_name f l) :
    s ∈ l ∧ (match f.customer_name with
      | none => true
      | some c => (decide (c = "") || decide (s.customer_name = c))) = true := by
  unfold filter_by_customer_name at h
  cases hc : f.customer_name with
  | none => simpa [hc] using h
  | some c =>
    rw [hc] at h
    by_cases hce : c = ""
    · simp [hce] at h ⊢; exact h
    · simp [hce] at h ⊢
      exact h

theorem mem_filter_by_product_name {f : ReportFilter} {l : List SalesOrder} {s : SalesOrder}
    (h : s ∈ filter_by_product_name f l) :
    s ∈ l ∧ (match f.product_name with
      | none => true
      | some p => (decide (p = "") || decide (s.product_name = p))) = true := by
  unfold filter_by_product_name at h
  cases hp : f.product_name with
  | none => simpa [hp] using h
  | some p =>
    rw [hp] at h
    by_cases hpe : p = ""
    · simp [hpe] at h ⊢; exact h
    · simp [hpe] at h ⊢
      exact h

theorem mem_filter_by_date_start {f : ReportFilter} {l : List SalesOrder} {s : SalesOrder}
    (h : s ∈ filter_by_date_start f l) :
    s ∈ l ∧ (match f.date_start with
      | none => true
      | some d => decide (d ≤ s.created_at)) = true := by
  unfold filter_by_date_start at h
  cases hd : f.date_start with
  | none => simpa [hd] using h
  | some d => rw [hd] at h; simpa using List.mem_filter.mp h

theorem mem_filter_by_date_end {f : ReportFilter} {l : List SalesOrder} {s : SalesOrder}
    (h : s ∈ filter_by_date_end f l) :
    s ∈ l ∧ (match f.date_end with
      | none => true
      | some d => decide (s.created_at ≤ d)) = true := by
  unfold filter_by_date_end at h
  cases hd : f.date_end with
  | none => simpa [hd] using h
  | some d => rw [hd] at h; simpa using List.mem_filter.mp h

theorem mem_filter_by_min_total {f : ReportFilter} {l : List SalesOrder} {s : SalesOrder}
    (h : s ∈ filter_by_min_total f l) :
    s ∈ l ∧ (match f.min_total_amount with
      | none => true
      | some m => decide (m ≤ s.total_amount)) = true := by
  unfold filter_by_min_total at h
  cases hm : f.min_total_amount with
  | none => simpa [hm] using h
  | some m => rw [hm] at h; simpa using List.mem_filter.mp h

theorem mem_filter_by_max_total {f : ReportFilter} {l : List SalesOrder} {s : SalesOrder}
    (h : s ∈ filter_by_max_total f l) :
    s ∈ l ∧ (match f.max_total_amount with
      | none => true
      | some m => decide (s.total_amount ≤ m)) = true := by
  unfold filter_by_max_total at h
  cases hm : f.max_total_amount with
  | none => simpa [hm] using h
  | some m => rw [hm] at h; simpa using List.mem_filter.mp h

/-- A sale surviving the six filter stages satisfies the full conjunction
of applied predicates. -/
theorem mem_apply_filters {f : ReportFilter} {l : List SalesOrder} {s : SalesOrder}
    (h : s ∈ apply_filters f l) : s ∈ l ∧ sale_passes_filter f s = true := by
  unfold apply_filters at h
  obtain ⟨h5, p6⟩ := mem_filter_by_max_total h
  obtain ⟨h4, p5⟩ := mem_filter_by_min_total h5
  obtain ⟨h3, p4⟩ := mem_filter_by_date_end h4
  obtain ⟨h2, p3⟩ := mem_filter_by_date_start h3
  obtain ⟨h1, p2⟩ := mem_filter_by_product_name h2
  obtain ⟨h0, p1⟩ := mem_filter_by_customer_name h1
  refine ⟨h0, ?_⟩
  unfold sale_passes_filter
  rw [p1, p2, p3, p4, p5, p6]
  rfl

/-- income_matches never produces an empty block: an unmatched sale keeps
one padded row. -/
theorem income_matches_ne_nil (incomes : List IncomeOrder) (s : SalesOrder) :
    income_matches incomes s ≠ [] := by
  unfold income_matches
  cases hf : incomes.filter (fun i => i.sales_order_id = s.id) with
  | nil => simp [hf]
  | cons a t => simp [hf]

/-- invoice_matches never produces an empty block. -/
theorem invoice_matches_ne_nil (invoices : List InvoiceOrder) (s : SalesOrder) :
    invoice_matches invoices s ≠ [] := by
  unfold invoice_matches
  cases hf : invoices.filter (fun v => v.sales_order_id = s.id) with
  | nil => simp [hf]
  | cons a t => simp [hf]

/-- Every sale keeps at least one joined row after both merges. -/
theorem sale_cross_ne_nil (incomes : List IncomeOrder) (invoices : List InvoiceOrder)
    (s : SalesOrder) : sale_cross incomes invoices s ≠ [] := by
  unfold sale_cross
  intro h
  obtain ⟨oi, hoi⟩ := List.exists_mem_of_ne_nil _ (income_matches_ne_nil incomes s)
  obtain ⟨ov, hov⟩ := List.exists_mem_of_ne_nil _ (invoice_matches_ne_nil invoices s)
  have : (⟨s, oi, ov⟩ : JoinedRow) ∈ (income_matches incomes s).flatMap
      (fun oi => (invoice_matches invoices s).map (fun ov => ⟨s, oi, ov⟩)) := by
    rw [List.mem_flatMap]
    exact ⟨oi, hoi, List.mem_map_of_mem _ hov⟩
  rw [h] at this
  exact List.not_mem_nil _ this

/-- Every row of the block of one sale carries that sale. -/
theorem mem_sale_cross_sale_eq {incomes : List IncomeOrder} {invoices : List InvoiceOrder}
    {s : SalesOrder} {r : JoinedRow} (h : r ∈ sale_cross incomes invoices s) :
    r.sale = s := by
  unfold sale_cross at h
  rw [List.mem_flatMap] at h
  obtain ⟨oi, _, hr⟩ := h
  rw [List.mem_map] at hr
  obtain ⟨ov, _, hr⟩ := hr
  rw [← hr]

/-- The two chained left merges decompose into one cross-product block per
sale, in sales-frame order. -/
theorem merge_merge_eq_flatMap (sales : List SalesOrder) (incomes : List IncomeOrder)
    (invoices : List InvoiceOrder) :
    merge_with_invoice (merge_sales_income sales incomes) invoices =
      sales.flatMap (sale_cross incomes invoices) := by
  unfold merge_with_invoice merge_sales_income sale_cross
  rw [List.flatMap_assoc]
  congr 1
  funext s
  rw [List.flatMap_map]

/-- Elements produced by first_occ_aux come from the traversed list. -/
theorem mem_of_mem_first_occ_aux {α : Type} [DecidableEq α] {seen l : List α} {x : α}
    (h : x ∈ first_occ_aux seen l) : x ∈ l := by
  induction l generalizing seen with
  | nil => simp [first_occ_aux] at h
  | cons a t ih =>
    unfold first_occ_aux at h
    by_cases ha : a ∈ seen
    · simp only [ha, if_true] at h
      exact List.mem_cons_of_mem a (ih h)
    · simp only [ha, if_false, List.mem_cons] at h
      rcases h with h | h
      · exact h ▸ List.mem_cons_self a t
      · exact List.mem_cons_of_mem a (ih h)

/-- Elements of first_occurrences come from the list itself. -/
theorem mem_of_mem_first_occurrences {α : Type} [DecidableEq α] {l : List α} {x : α}
    (h : x ∈ first_occurrences l) : x ∈ l :=
  mem_of_mem_first_occ_aux h

/-- Unfolding equation: an already-seen head is skipped. -/
theorem first_occ_aux_cons_mem {α : Type} [DecidableEq α] {seen : List α} {a : α}
    (t : List α) (ha : a ∈ seen) :
    first_occ_aux seen (a :: t) = first_occ_aux seen t := by
  simp [first_occ_aux, ha]

/-- Unfolding equation: an unseen head is emitted and recorded. -/
theorem first_occ_aux_cons_not_mem {α : Type} [DecidableEq α] {seen : List α} {a : α}
    (t : List α) (ha : a ∉ seen) :
    first_occ_aux seen (a :: t) = a :: first_occ_aux (a :: seen) t := by
  simp [first_occ_aux, ha]

/-- A traversed prefix consisting of already-seen elements is skipped. -/
theorem first_occ_aux_skip {α : Type} [DecidableEq α] (seen pre rest : List α)
    (hpre : ∀ x ∈ pre, x ∈ seen) :
    first_occ_aux seen (pre ++ rest) = first_occ_aux seen rest := by
  induction pre with
  | nil => rfl
  | cons a t ih =>
    have ha : a ∈ seen := hpre a (List.mem_cons_self a t)
    rw [List.cons_append, first_occ_aux_cons_mem _ ha]
    exact ih (fun x hx => hpre x (List.mem_cons_of_mem a hx))

/-- Traversing one nonempty block per distinct unseen key yields exactly
the keys, in order: the head of each block is emitted and the rest of the
block is skipped as seen. -/
theorem first_occ_aux_flatMap {α : Type} [DecidableEq α] (K : α → List α) :
    ∀ (l seen : List α), l.Nodup → (∀ a ∈ l, a ∉ seen) →
      (∀ a ∈ l, K a ≠ []) → (∀ a ∈ l, ∀ b ∈ K a, b = a) →
      first_occ_aux seen (l.flatMap K) = l := by
  intro l
  induction l with
  | nil => intro seen _ _ _ _; rfl
  | cons a t ih =>
    intro seen hnd hseen hne htag
    rw [List.flatMap_cons]
    obtain ⟨b, bs, hK⟩ := List.exists_cons_of_ne_nil (hne a (List.mem_cons_self a t))
    have hb : b = a := htag a (List.mem_cons_self a t) b (hK ▸ List.mem_cons_self b bs)
    have ha : a ∉ seen := hseen a (List.mem_cons_self a t)
    rw [hK, hb, List.cons_append, first_occ_aux_cons_not_mem _ ha]
    congr 1
    have hbs : ∀ x ∈ bs, x ∈ a :: seen := by
      intro x hx
      have hxa : x = a := htag a (List.mem_cons_self a t) x (hK ▸ List.mem_cons_of_mem b hx)
      rw [hxa]
      exact List.mem_cons_self a seen
    rw [first_occ_aux_skip (a :: seen) bs _ hbs]
    rw [List.nodup_cons] at hnd
    refine ih (a :: seen) hnd.2 ?_ (fun x hx => hne x (List.mem_cons_of_mem a hx))
      (fun x hx => htag x (List.mem_cons_of_mem a hx))
    intro x hx
    rw [List.mem_cons]
    rintro (hxa | hxs)
    · exact hnd.1 (hxa ▸ hx)
    · exact hseen x (List.mem_cons_of_mem a hx) hxs

/-- first_occurrences of a per-key block decomposition recovers the keys. -/
theorem first_occurrences_flatMap {α : Type} [DecidableEq α] (l : List α) (K : α → List α)
    (hnd : l.Nodup) (hne : ∀ a ∈ l, K a ≠ []) (htag : ∀ a ∈ l, ∀ b ∈ K a, b = a) :
    first_occurrences (l.flatMap K) = l :=
  first_occ_aux_flatMap K l [] hnd (fun a _ h => (List.not_mem_nil a h).elim) hne htag

/-- Filtering a per-key block decomposition for one key of a duplicate-free
key list recovers exactly the block of that key. -/
theorem filter_flatMap_single {α β : Type} [DecidableEq α] (l : List α) (K : α → List β)
    (tag : β → α) (s : α) (hnd : l.Nodup) (hs : s ∈ l)
    (htag : ∀ a ∈ l, ∀ b ∈ K a, tag b = a) :
    (l.flatMap K).filter (fun b => tag b = s) = K s := by
  induction l with
  | nil => exact absurd hs (List.not_mem_nil s)
  | cons a t ih =>
    rw [List.flatMap_cons, List.filter_append]
    rw [List.nodup_cons] at hnd
    rcases List.mem_cons.mp hs with hsa | hst
    · subst hsa
      have h1 : (K s).filter (fun b => tag b = s) = K s := by
        rw [List.filter_eq_self]
        intro b hb
        simpa using htag s (List.mem_cons_self s t) b hb
      have h2 : (t.flatMap K).filter (fun b => tag b = s) = [] := by
        rw [List.filter_eq_nil_iff]
        intro b hb
        rw [List.mem_flatMap] at hb
        obtain ⟨x, hx, hbx⟩ := hb
        have hbs : tag b = x := htag x (List.mem_cons_of_mem s hx) b hbx
        simp only [decide_eq_true_eq]
        rw [hbs]
        intro hxs
        exact hnd.1 (hxs ▸ hx)
      rw [h1, h2, List.append_nil]
    · have h1 : (K a).filter (fun b => tag b = s) = [] := by
        rw [List.filter_eq_nil_iff]
        intro b hb
        have hba : tag b = a := htag a (List.mem_cons_self a t) b hb
        simp only [decide_eq_true_eq]
        rw [hba]
        intro has
        exact hnd.1 (has ▸ hst)
      rw [h1, List.nil_append]
      exact ih hnd.2 hst (fun x hx => htag x (List.mem_cons_of_mem a hx))

/-- Grouping columns of an aggregated row recover its group key. -/
theorem report_row_key_make (g : List JoinedRow) (s : SalesOrder) :
    report_row_key (make_report_row g s) = s := rfl

/-- Central decomposition: on a successful run the emitted rows are exactly
one aggregated row per surviving sale, built from the cross-product
block belonging to that sale, in the order of the filtered sales frame. -/
theorem overview_rows_eq {f : ReportFilter} {sales : List SalesOrder}
    {incomes : List IncomeOrder} {invoices : List InvoiceOrder} {rows : List ReportRow}
    (hnd : (sales.map SalesOrder.id).Nodup)
    (h : get_report_overview f sales incomes invoices = Except.ok rows) :
    rows = (apply_filters f sales).map
      (fun s => make_report_row (sale_cross incomes invoices s) s) := by
  unfold get_report_overview at h
  by_cases hs : sales.isEmpty
  · rw [if_pos hs] at h; exact absurd h (by simp)
  rw [if_neg hs] at h
  by_cases hi : incomes.isEmpty
  · rw [if_pos hi] at h; exact absurd h (by simp)
  rw [if_neg hi] at h
  by_cases hv : invoices.isEmpty
  · rw [if_pos hv] at h; exact absurd h (by simp)
  rw [if_neg hv] at h
  simp only [Except.ok.injEq] at h
  subst h
  have hfnd : (apply_filters f sales).Nodup := by
    refine List.Nodup.of_map SalesOrder.id ?_
    exact List.Nodup.sublist (List.Sublist.map SalesOrder.id (apply_filters_sublist f sales)) hnd
  unfold groupby_agg
  rw [merge_merge_eq_flatMap]
  have hkeys : first_occurrences
      (((apply_filters f sales).flatMap (sale_cross incomes invoices)).map JoinedRow.sale) =
      apply_filters f sales := by
    rw [List.map_flatMap]
    refine first_occurrences_flatMap _ _ hfnd ?_ ?_
    · intro a _ hmap
      rw [List.map_eq_nil_iff] at hmap
      exact sale_cross_ne_nil incomes invoices a hmap
    · intro a _ b hb
      rw [List.mem_map] at hb
      obtain ⟨r, hr, hrb⟩ := hb
      rw [← hrb]
      exact mem_sale_cross_sale_eq hr
  rw [hkeys]
  refine List.map_congr_left ?_
  intro s hsmem
  congr 1
  exact filter_flatMap_single (apply_filters f sales) (sale_cross incomes invoices)
    JoinedRow.sale s hfnd hsmem
    (fun a _ b hb => mem_sale_cross_sale_eq hb)

/-- With all three collections non-empty the endpoint reaches the pipeline
and succeeds. -/
theorem get_report_overview_ok (f : ReportFilter) {sales : List SalesOrder}
    {incomes : List IncomeOrder} {invoices : List InvoiceOrder}
    (hs : sales ≠ []) (hi : incomes ≠ []) (hv : invoices ≠ []) :
    get_report_overview f sales incomes invoices =
      Except.ok (groupby_agg (merge_with_invoice
        (merge_sales_income (apply_filters f sales) incomes) invoices)) := by
  unfold get_report_overview
  simp [List.isEmpty_iff, hs, hi, hv]

/-- A successful run forces the rows to be the grouped aggregation of the
twice-merged filtered frame. -/
theorem overview_ok_inv {f : ReportFilter} {sales : List SalesOrder}
    {incomes : List IncomeOrder} {invoices : List InvoiceOrder} {rows : List ReportRow}
    (h : get_report_overview f sales incomes invoices = Except.ok rows) :
    rows = groupby_agg (merge_with_invoice
      (merge_sales_income (apply_filters f sales) incomes) invoices) := by
  unfold get_report_overview at h
  by_cases hs : sales.isEmpty
  · rw [if_pos hs] at h; exact absurd h (by simp)
  rw [if_neg hs] at h
  by_cases hi : incomes.isEmpty
  · rw [if_pos hi] at h; exact absurd h (by simp)
  rw [if_neg hi] at h
  by_cases hv : invoices.isEmpty
  · rw [if_pos hv] at h; exact absurd h (by simp)
  rw [if_neg hv] at h
  simpa using h.symm

/-- In a sales frame with duplicate-free ids, filtering for the id of a
member returns exactly that member. -/
theorem filter_id_eq_single {sales : List SalesOrder}
    (hnd : (sales.map SalesOrder.id).Nodup) {s : SalesOrder} (hs : s ∈ sales) :
    sales.filter (fun k => k.id = s.id) = [s] := by
  induction sales with
  | nil => exact absurd hs (List.not_mem_nil s)
  | cons a t ih =>
    rw [List.map_cons, List.nodup_cons] at hnd
    rcases List.mem_cons.mp hs with rfl | hst
    · rw [List.filter_cons_of_pos (by simp)]
      have ht : t.filter (fun k => k.id = s.id) = [] := by
        rw [List.filter_eq_nil_iff]
        intro k hk hks
        simp only [decide_eq_true_eq] at hks
        exact hnd.1 (hks ▸ List.mem_map_of_mem SalesOrder.id hk)
      rw [ht]
    · have hna : ¬(decide (a.id = s.id) = true) := by
        simp only [decide_eq_true_eq]
        intro has
        exact hnd.1 (has ▸ List.mem_map_of_mem SalesOrder.id hst)
      have hstep : List.filter (fun k => decide (k.id = s.id)) (a :: t) =
          List.filter (fun k => decide (k.id = s.id)) t := List.filter_cons_of_neg hna
      rw [hstep]
      exact ih hnd.2 hst

/-- Summing a constant over a list multiplies it by the length. -/
theorem sum_map_const_int {β : Type} (l : List β) (x : Int) :
    (l.map (fun _ => x)).sum = (l.length : Int) * x := by
  induction l with
  | nil => simp
  | cons a t ih => simp [ih]; ring

/-- Summing blockwise constants over a cross product: each left element
contributes its value once per right element. -/
theorem sum_flatMap_section {α β : Type} (mi : List α) (mv : List β) (g : α → Int) :
    (mi.flatMap (fun i => mv.map (fun _ => g i))).sum = (mv.length : Int) * (mi.map g).sum := by
  induction mi with
  | nil => simp
  | cons a t ih =>
    rw [List.flatMap_cons, List.sum_append, ih, sum_map_const_int, List.map_cons, List.sum_cons]
    ring

/-- Summing one fixed list once per left element. -/
theorem sum_flatMap_const {α : Type} (mi : List α) (L : List Int) :
    (mi.flatMap (fun _ => L)).sum = (mi.length : Int) * L.sum := by
  induction mi with
  | nil => simp
  | cons a t ih =>
    rw [List.flatMap_cons, List.sum_append, ih]
    simp only [List.length_cons]
    push_cast
    ring

/-- Appending one fixed list once per left element is a replicated
flatten. -/
theorem flatMap_const_eq_flatten {α β : Type} (mi : List α) (L : List β) :
    mi.flatMap (fun _ => L) = (List.replicate mi.length L).flatten := by
  induction mi with
  | nil => rfl
  | cons a t ih => simp only [List.flatMap_cons, List.length_cons, List.replicate_succ,
      List.flatten_cons, ih]

/-- Every filter stage maps an empty frame to an empty frame. -/
theorem filter_by_min_total_nil (f : ReportFilter) : filter_by_min_total f [] = [] := by
  unfold filter_by_min_total
  cases f.min_total_amount <;> simp

theorem filter_by_max_total_nil (f : ReportFilter) : filter_by_max_total f [] = [] := by
  unfold filter_by_max_total
  cases f.max_total_amount <;> simp

/-- C1, counterexample: the claim quantifies over every state of the three
collections, but with one sale and empty income and invoice collections the
operation raises a KeyError (the empty frames have no sales_order_id
column) and emits no row at all for that sale, so it does not emit exactly
one row per Sale. -/
theorem overview_one_row_per_sale_cex :
    get_report_overview no_filter [⟨"S2", "Blue", "Bolt", 1, 4, 4, 3⟩] [] [] =
      Except.error "KeyError: sales_order_id" := rfl

/-- C1 (amended): for every state in which the Income and Invoice
collections are non-empty (so that the merges do not raise) and the sale
ids are duplicate-free (their primary-key constraint), the unfiltered
overview emits exactly one output row per Sale record: the multiset of
grouping keys of the output equals the multiset of Sales, so no Sale is
lost or duplicated whatever the number of matching Incomes and Invoices. -/
theorem overview_one_row_per_sale (sales : List SalesOrder) (incomes : List IncomeOrder)
    (invoices : List InvoiceOrder)
    (hs : sales ≠ []) (hi : incomes ≠ []) (hv : invoices ≠ [])
    (hnd : (sales.map SalesOrder.id).Nodup) :
    ∃ rows, get_report_overview no_filter sales incomes invoices = Except.ok rows ∧
      List.Perm (rows.map report_row_key) sales := by
  refine ⟨_, get_report_overview_ok no_filter hs hi hv, ?_⟩
  have hrows := overview_rows_eq hnd (get_report_overview_ok no_filter hs hi hv)
  rw [hrows, apply_filters_no_filter, List.map_map]
  have hkey : (report_row_key ∘ fun s => make_report_row (sale_cross incomes invoices s) s) =
      id := by
    funext s
    exact report_row_key_make _ s
  rw [hkey, List.map_id]

/-- C1, witness: a concrete run of the amended theorem, on one sale, one
unrelated income and one matching invoice. -/
theorem overview_one_row_per_sale_witness :
    List.Perm (((get_report_overview no_filter [⟨"S1", "Acme", "W", 2, 10, 20, 5⟩]
        [⟨"S9", "bank", 3, 4, none⟩] [⟨"S1", "N1", 5, 6, some 1, "t", 7⟩]).toOption.getD
        []).map report_row_key)
      [⟨"S1", "Acme", "W", 2, 10, 20, 5⟩] := by
  obtain ⟨rows, hok, hperm⟩ := overview_one_row_per_sale
    [⟨"S1", "Acme", "W", 2, 10, 20, 5⟩] [⟨"S9", "bank", 3, 4, none⟩]
    [⟨"S1", "N1", 5, 6, some 1, "t", 7⟩]
    (by decide) (by decide) (by decide) (by decide)
  rw [hok]
  simpa using hperm

/-- C4: the JSON overview path and the spreadsheet download path run the
textually duplicated pipeline on the same collections, so for every state
and every filter they compute identical row values (the download path then
serializes the same rows to a spreadsheet instead of JSON). -/
theorem download_rows_eq_overview (f : ReportFilter) (sales : List SalesOrder)
    (incomes : List IncomeOrder) (invoices : List InvoiceOrder) :
    download_report_excel_rows f sales incomes invoices =
      get_report_overview f sales incomes invoices := rfl

/-- C5: at the very example state of the specification (one Sale, two
matching Incomes, an empty Invoice collection) the operation raises a
KeyError instead of returning the single expected row, because the empty
invoice frame has no sales_order_id column for the second merge. -/
theorem overview_s1_example_raises :
    get_report_overview no_filter [⟨"S1", "Acme", "Widget", 2, 10, 20, 5⟩]
      [⟨"S1", "bank", 15, 6, none⟩, ⟨"S1", "bank", 5, 7, none⟩] [] =
      Except.error "KeyError: sales_order_id" := rfl

/-- C6: with an empty Sales collection (and any other data) the operation
raises a KeyError instead of returning an empty report, because the empty
sales frame has no id column for the first merge. -/
theorem overview_empty_sales_raises :
    get_report_overview no_filter [] [⟨"S9", "bank", 1, 1, none⟩]
      [⟨"S9", "N1", 1, 1, none, "t", 1⟩] = Except.error "KeyError: id" := rfl

/-- C9: with a non-empty Sales collection, an empty Income collection (or
an empty Invoice collection) makes the respective merge raise a KeyError
for the missing sales_order_id column instead of emitting one row per
Sale. -/
theorem overview_empty_income_or_invoice_raises :
    get_report_overview no_filter [⟨"S1", "Acme", "Widget", 2, 10, 20, 5⟩] []
        [⟨"S1", "INV-1", 8, 8, some 2, "plain", 9⟩] =
      Except.error "KeyError: sales_order_id" ∧
    get_report_overview no_filter [⟨"S1", "Acme", "Widget", 2, 10, 20, 5⟩]
        [⟨"S1", "bank", 15, 6, none⟩] [] =
      Except.error "KeyError: sales_order_id" := ⟨rfl, rfl⟩

/-- An inverted date range (end before start) empties the filtered frame:
the two date predicates are conjoined and cannot both hold. -/
theorem apply_filters_inverted_dates {f : ReportFilter} (l : List SalesOrder)
    {a b : Nat} (hds : f.date_start = some a) (hde : f.date_end = some b) (hlt : b < a) :
    apply_filters f l = [] := by
  unfold apply_filters
  have h4 : filter_by_date_end f (filter_by_date_start f
      (filter_by_product_name f (filter_by_customer_name f l))) = [] := by
    unfold filter_by_date_end filter_by_date_start
    rw [hds, hde]
    dsimp only
    rw [List.filter_filter, List.filter_eq_nil_iff]
    intro s _
    simp only [Bool.and_eq_true, decide_eq_true_eq, not_and]
    intro h1 h2
    omega
  rw [h4, filter_by_min_total_nil, filter_by_max_total_nil]

/-- An inverted total-amount range (max below min) empties the filtered
frame the same way. -/
theorem apply_filters_inverted_amounts {f : ReportFilter} (l : List SalesOrder)
    {a b : Int} (hmin : f.min_total_amount = some a) (hmax : f.max_total_amount = some b)
    (hlt : b < a) : apply_filters f l = [] := by
  unfold apply_filters filter_by_max_total filter_by_min_total
  rw [hmin, hmax]
  dsimp only
  rw [List.filter_filter, List.filter_eq_nil_iff]
  intro s _
  simp only [Bool.and_eq_true, decide_eq_true_eq, not_and]
  intro h1 h2
  omega

/-- C7, counterexample: the claim quantifies over every state, but with an
inverted date range, one sale and empty income and invoice collections the
operation raises a KeyError instead of returning zero rows. -/
theorem overview_inverted_range_cex :
    get_report_overview ⟨none, none, some 10, some 5, none, none⟩
      [⟨"S1", "A", "P", 1, 2, 2, 7⟩] [] [] =
      Except.error "KeyError: sales_order_id" := rfl

/-- C7 (amended): provided the three collections are non-empty (so that
the merges do not raise), a filter spec with an inverted date range or an
inverted total-amount range yields a successful run with zero rows, not an
error. -/
theorem overview_inverted_range (f : ReportFilter) (sales : List SalesOrder)
    (incomes : List IncomeOrder) (invoices : List InvoiceOrder)
    (hs : sales ≠ []) (hi : incomes ≠ []) (hv : invoices ≠ [])
    (hr : (∃ a b, f.date_start = some a ∧ f.date_end = some b ∧ b < a) ∨
          (∃ a b, f.min_total_amount = some a ∧ f.max_total_amount = some b ∧ b < a)) :
    get_report_overview f sales incomes invoices = Except.ok [] := by
  rw [get_report_overview_ok f hs hi hv]
  have hfs : apply_filters f sales = [] := by
    rcases hr with ⟨a, b, h1, h2, h3⟩ | ⟨a, b, h1, h2, h3⟩
    · exact apply_filters_inverted_dates sales h1 h2 h3
    · exact apply_filters_inverted_amounts sales h1 h2 h3
  rw [hfs]
  rfl

/-- C7, witness: a concrete run with date_start 10 after date_end 5 over
non-empty collections returns ok with zero rows. -/
theorem overview_inverted_range_witness :
    get_report_overview ⟨none, none, some 10, some 5, none, none⟩
      [⟨"S1", "A", "P", 1, 2, 2, 7⟩] [⟨"S1", "bank", 3, 4, none⟩]
      [⟨"S1", "N1", 5, 6, none, "t", 7⟩] = Except.ok [] :=
  overview_inverted_range ⟨none, none, some 10, some 5, none, none⟩
    [⟨"S1", "A", "P", 1, 2, 2, 7⟩] [⟨"S1", "bank", 3, 4, none⟩]
    [⟨"S1", "N1", 5, 6, none, "t", 7⟩]
    (by decide) (by decide) (by decide) (Or.inl ⟨10, 5, rfl, rfl, by decide⟩)

/-- C8, counterexample: the customer_name filter set to the empty string
is ignored by the Python truthiness guard, so a Sale whose customer name
(Bob) differs from the filter value still produces an output row; the
claim as stated (no row from a Sale whose name differs from the set filter
value) fails at this state. -/
theorem overview_filter_exact_match_cex :
    get_report_overview ⟨some "", none, none, none, none, none⟩
        [⟨"S1", "Bob", "P", 2, 10, 20, 5⟩] [⟨"S1", "bank", 7, 6, none⟩]
        [⟨"S1", "N7", 9, 8, some 2, "t", 9⟩] =
      Except.ok [⟨"S1", "Bob", "P", 2, 10, 20, 5, "6", 7, "N7", 8, 2⟩] ∧
    ("Bob" : String) ≠ "" := ⟨rfl, by decide⟩

/-- C8 (amended): on any successful run, every output row derives from a
Sale that satisfies the conjunction of all applied filter predicates:
exact equality with the customer-name and product-name filter values when
those are set to non-empty strings (an empty-string value behaves as
unset), and the inclusive date and total-amount bounds.  In particular a
Sale whose customer name merely contains a non-empty filter value as a
substring is excluded. -/
theorem overview_rows_pass_filters (f : ReportFilter) (sales : List SalesOrder)
    (incomes : List IncomeOrder) (invoices : List InvoiceOrder) (rows : List ReportRow)
    (h : get_report_overview f sales incomes invoices = Except.ok rows) :
    ∀ r ∈ rows, sale_passes_filter f (report_row_key r) = true := by
  intro r hr
  have hrows := overview_ok_inv h
  subst hrows
  unfold groupby_agg at hr
  rw [List.mem_map] at hr
  obtain ⟨s, hsmem, hrs⟩ := hr
  have hkey : report_row_key r = s := by rw [← hrs]; rfl
  rw [hkey]
  have hs2 : s ∈ (merge_with_invoice (merge_sales_income (apply_filters f sales) incomes)
      invoices).map JoinedRow.sale := mem_of_mem_first_occurrences hsmem
  rw [List.mem_map] at hs2
  obtain ⟨jr, hjr, hjrs⟩ := hs2
  rw [merge_merge_eq_flatMap, List.mem_flatMap] at hjr
  obtain ⟨a, ha, hjra⟩ := hjr
  have hja : jr.sale = a := mem_sale_cross_sale_eq hjra
  rw [← hjrs, hja]
  exact (mem_apply_filters ha).2

/-- C8, witness: a concrete run with customer_name set to Acme; the single
output row passes the full filter conjunction. -/
theorem overview_rows_pass_filters_witness :
    sale_passes_filter ⟨some "Acme", none, none, none, none, none⟩
      (report_row_key ⟨"S1", "Acme", "P", 2, 10, 20, 5, "6", 7, "N7", 8, 2⟩) = true :=
  overview_rows_pass_filters ⟨some "Acme", none, none, none, none, none⟩
    [⟨"S1", "Acme", "P", 2, 10, 20, 5⟩] [⟨"S1", "bank", 7, 6, none⟩]
    [⟨"S1", "N7", 9, 8, some 2, "t", 9⟩]
    [⟨"S1", "Acme", "P", 2, 10, 20, 5, "6", 7, "N7", 8, 2⟩]
    rfl ⟨"S1", "Acme", "P", 2, 10, 20, 5, "6", 7, "N7", 8, 2⟩ (by decide)

/-- On an unfiltered run over duplicate-free sale ids, restricting the
output to the id of a given sale yields exactly the aggregated row of the
cross-product block belonging to that sale. -/
theorem overview_row_for_sale {sales : List SalesOrder} {incomes : List IncomeOrder}
    {invoices : List InvoiceOrder} {s : SalesOrder}
    (hnd : (sales.map SalesOrder.id).Nodup) (hs : s ∈ sales)
    (hi : incomes ≠ []) (hv : invoices ≠ []) :
    ∃ rows, get_report_overview no_filter sales incomes invoices = Except.ok rows ∧
      rows.filter (fun x => x.id = s.id) =
        [make_report_row (sale_cross incomes invoices s) s] := by
  have hsne : sales ≠ [] := List.ne_nil_of_mem hs
  refine ⟨_, get_report_overview_ok no_filter hsne hi hv, ?_⟩
  rw [overview_rows_eq hnd (get_report_overview_ok no_filter hsne hi hv),
    apply_filters_no_filter, List.filter_map]
  have hcomp : ((fun x => decide (x.id = s.id)) ∘
      (fun k => make_report_row (sale_cross incomes invoices k) k)) =
      (fun k => decide (k.id = s.id)) := rfl
  rw [hcomp, filter_id_eq_single hnd hs]
  rfl

/-- C2, counterexample: at a state with one Sale, two matching Incomes and
one matching Invoice, the cross-product join duplicates the single invoice
before grouping, so the emitted Invoice-number field is the invoice number
twice (newline-joined), not the single invoice number as claimed. -/
theorem overview_two_incomes_one_invoice_cex :
    get_report_overview no_filter [⟨"S1", "Acme", "P", 2, 10, 20, 5⟩]
        [⟨"S1", "bank", 15, 6, none⟩, ⟨"S1", "bill", 5, 7, none⟩]
        [⟨"S1", "INV-9", 8, 8, some 2, "plain", 9⟩] =
      Except.ok [⟨"S1", "Acme", "P", 2, 10, 20, 5, "6\n7", 20, "INV-9\nINV-9", 16, 4⟩] ∧
    (⟨"S1", "Acme", "P", 2, 10, 20, 5, "6\n7", 20, "INV-9\nINV-9", 16, 4⟩ :
      ReportRow).invoice_number ≠ "INV-9" := ⟨rfl, by decide⟩

/-- C2 (amended): for every state with duplicate-free sale ids in which
one Sale has exactly two matching Incomes and exactly one matching
Invoice, the unfiltered overview emits exactly one output row for that
Sale; its Income-amount sum equals the sum of the two Income amounts, but
its Invoice-number field holds the single invoice number once per joined
income row, i.e. twice, newline-joined — the duplication introduced by the
cross-product join before grouping. -/
theorem overview_two_incomes_one_invoice (sales : List SalesOrder)
    (incomes : List IncomeOrder) (invoices : List InvoiceOrder)
    (s : SalesOrder) (i1 i2 : IncomeOrder) (v : InvoiceOrder)
    (hnd : (sales.map SalesOrder.id).Nodup) (hs : s ∈ sales)
    (hinc : incomes.filter (fun i => i.sales_order_id = s.id) = [i1, i2])
    (hinv : invoices.filter (fun w => w.sales_order_id = s.id) = [v]) :
    ∃ rows, get_report_overview no_filter sales incomes invoices = Except.ok rows ∧
      rows.filter (fun x => x.id = s.id) =
        [make_report_row (sale_cross incomes invoices s) s] ∧
      (make_report_row (sale_cross incomes invoices s) s).amount_x =
        i1.amount + i2.amount ∧
      (make_report_row (sale_cross incomes invoices s) s).invoice_number =
        v.invoice_number ++ "\n" ++ v.invoice_number := by
  have hi : incomes ≠ [] := by
    intro hn
    rw [hn] at hinc
    simp at hinc
  have hv2 : invoices ≠ [] := by
    intro hn
    rw [hn] at hinv
    simp at hinv
  obtain ⟨rows, hok, hfilter⟩ := overview_row_for_sale hnd hs hi hv2
  have hcross : sale_cross incomes invoices s =
      [⟨s, some i1, some v⟩, ⟨s, some i2, some v⟩] := by
    unfold sale_cross income_matches invoice_matches
    rw [hinc, hinv]
    rfl
  refine ⟨rows, hok, hfilter, ?_, ?_⟩
  · rw [hcross]
    simp [make_report_row]
  · rw [hcross]
    simp [make_report_row, String.intercalate, String.intercalate.go]

/-- C2, witness: a concrete run of the amended theorem; the single row for
S1 sums both incomes (15 + 5) and carries the invoice number twice. -/
theorem overview_two_incomes_one_invoice_witness :
    ((get_report_overview no_filter [⟨"S1", "Acme", "P", 2, 10, 20, 5⟩]
        [⟨"S1", "bank", 15, 6, none⟩, ⟨"S1", "bill", 5, 7, none⟩]
        [⟨"S1", "INV-9", 8, 8, some 2, "plain", 9⟩]).toOption.getD []).filter
        (fun x => x.id = (⟨"S1", "Acme", "P", 2, 10, 20, 5⟩ : SalesOrder).id) =
      [make_report_row (sale_cross [⟨"S1", "bank", 15, 6, none⟩, ⟨"S1", "bill", 5, 7, none⟩]
        [⟨"S1", "INV-9", 8, 8, some 2, "plain", 9⟩] ⟨"S1", "Acme", "P", 2, 10, 20, 5⟩)
        ⟨"S1", "Acme", "P", 2, 10, 20, 5⟩] ∧
    (make_report_row (sale_cross [⟨"S1", "bank", 15, 6, none⟩, ⟨"S1", "bill", 5, 7, none⟩]
        [⟨"S1", "INV-9", 8, 8, some 2, "plain", 9⟩] ⟨"S1", "Acme", "P", 2, 10, 20, 5⟩)
        ⟨"S1", "Acme", "P", 2, 10, 20, 5⟩).amount_x = 15 + 5 ∧
    (make_report_row (sale_cross [⟨"S1", "bank", 15, 6, none⟩, ⟨"S1", "bill", 5, 7, none⟩]
        [⟨"S1", "INV-9", 8, 8, some 2, "plain", 9⟩] ⟨"S1", "Acme", "P", 2, 10, 20, 5⟩)
        ⟨"S1", "Acme", "P", 2, 10, 20, 5⟩).invoice_number = "INV-9" ++ "\n" ++ "INV-9" := by
  obtain ⟨rows, hok, hf, h1, h2⟩ := overview_two_incomes_one_invoice
    [⟨"S1", "Acme", "P", 2, 10, 20, 5⟩]
    [⟨"S1", "bank", 15, 6, none⟩, ⟨"S1", "bill", 5, 7, none⟩]
    [⟨"S1", "INV-9", 8, 8, some 2, "plain", 9⟩]
    ⟨"S1", "Acme", "P", 2, 10, 20, 5⟩ ⟨"S1", "bank", 15, 6, none⟩
    ⟨"S1", "bill", 5, 7, none⟩ ⟨"S1", "INV-9", 8, 8, some 2, "plain", 9⟩
    (by decide) (by decide) (by rfl) (by rfl)
  rw [hok]
  exact ⟨hf, h1, h2⟩

/-- C3, counterexample: the aggregation lambda does not deduplicate.  With
one Income and two matching Invoices the income creation date appears in
two joined rows, and the emitted Income-date field joins it twice, unlike
the distinct-values string the claim describes. -/
theorem overview_aggregation_formulas_cex :
    get_report_overview no_filter [⟨"S1", "A", "P", 1, 2, 2, 3⟩]
        [⟨"S1", "bank", 15, 6, none⟩]
        [⟨"S1", "N1", 7, 8, some 2, "t", 9⟩, ⟨"S1", "N2", 7, 4, none, "t", 9⟩] =
      Except.ok [⟨"S1", "A", "P", 1, 2, 2, 3, "6\n6", 30, "N1\nN2", 12, 2⟩] ∧
    (⟨"S1", "A", "P", 1, 2, 2, 3, "6\n6", 30, "N1\nN2", 12, 2⟩ : ReportRow).created_at_y ≠
      distinct_income_dates (sale_cross [⟨"S1", "bank", 15, 6, none⟩]
        [⟨"S1", "N1", 7, 8, some 2, "t", 9⟩, ⟨"S1", "N2", 7, 4, none, "t", 9⟩]
        ⟨"S1", "A", "P", 1, 2, 2, 3⟩) := ⟨rfl, by decide⟩

/-- C3 (amended): on any successful run with duplicate-free sale ids,
every emitted row carries exactly the five aggregates computed from the
joined rows belonging to its sale: the newline-joined non-null income creation dates in
encounter order (with repetitions as they occur in the joined rows, not
deduplicated), the null-safe sum of income amounts (missing values
contribute 0), the newline-joined non-null invoice numbers in encounter
order, and the null-safe sums of invoice amounts and tax amounts. -/
theorem overview_aggregation_formulas (f : ReportFilter) (sales : List SalesOrder)
    (incomes : List IncomeOrder) (invoices : List InvoiceOrder) (rows : List ReportRow)
    (hnd : (sales.map SalesOrder.id).Nodup)
    (h : get_report_overview f sales incomes invoices = Except.ok rows) :
    ∀ r ∈ rows,
      r.created_at_y = String.intercalate "\n"
        ((sale_cross incomes invoices (report_row_key r)).filterMap
          (fun jr => jr.income.map (fun i => toString i.created_at))) ∧
      r.amount_x = ((sale_cross incomes invoices (report_row_key r)).filterMap
        (fun jr => jr.income.map IncomeOrder.amount)).sum ∧
      r.invoice_number = String.intercalate "\n"
        ((sale_cross incomes invoices (report_row_key r)).filterMap
          (fun jr => jr.invoice.map InvoiceOrder.invoice_number)) ∧
      r.amount_y = ((sale_cross incomes invoices (report_row_key r)).filterMap
        (fun jr => jr.invoice.map InvoiceOrder.amount)).sum ∧
      r.tax_amount = ((sale_cross incomes invoices (report_row_key r)).filterMap
        (fun jr => jr.invoice.bind InvoiceOrder.tax_amount)).sum := by
  intro r hr
  rw [overview_rows_eq hnd h, List.mem_map] at hr
  obtain ⟨s, hsmem, hrs⟩ := hr
  subst hrs
  rw [report_row_key_make]
  exact ⟨rfl, rfl, rfl, rfl, rfl⟩

/-- C3, witness: a concrete run of the amended theorem on one sale with
one matching income and one matching invoice. -/
theorem overview_aggregation_formulas_witness :
    (⟨"S1", "A", "P", 1, 2, 2, 3, "6", 15, "N1", 8, 2⟩ : ReportRow).created_at_y =
      String.intercalate "\n"
        ((sale_cross [⟨"S1", "b", 15, 6, none⟩] [⟨"S1", "N1", 7, 8, some 2, "t", 9⟩]
          (report_row_key ⟨"S1", "A", "P", 1, 2, 2, 3, "6", 15, "N1", 8, 2⟩)).filterMap
          (fun jr => jr.income.map (fun i => toString i.created_at))) ∧
    (⟨"S1", "A", "P", 1, 2, 2, 3, "6", 15, "N1", 8, 2⟩ : ReportRow).amount_x =
      ((sale_cross [⟨"S1", "b", 15, 6, none⟩] [⟨"S1", "N1", 7, 8, some 2, "t", 9⟩]
        (report_row_key ⟨"S1", "A", "P", 1, 2, 2, 3, "6", 15, "N1", 8, 2⟩)).filterMap
        (fun jr => jr.income.map IncomeOrder.amount)).sum ∧
    (⟨"S1", "A", "P", 1, 2, 2, 3, "6", 15, "N1", 8, 2⟩ : ReportRow).invoice_number =
      String.intercalate "\n"
        ((sale_cross [⟨"S1", "b", 15, 6, none⟩] [⟨"S1", "N1", 7, 8, some 2, "t", 9⟩]
          (report_row_key ⟨"S1", "A", "P", 1, 2, 2, 3, "6", 15, "N1", 8, 2⟩)).filterMap
          (fun jr => jr.invoice.map InvoiceOrder.invoice_number)) ∧
    (⟨"S1", "A", "P", 1, 2, 2, 3, "6", 15, "N1", 8, 2⟩ : ReportRow).amount_y =
      ((sale_cross [⟨"S1", "b", 15, 6, none⟩] [⟨"S1", "N1", 7, 8, some 2, "t", 9⟩]
        (report_row_key ⟨"S1", "A", "P", 1, 2, 2, 3, "6", 15, "N1", 8, 2⟩)).filterMap
        (fun jr => jr.invoice.map InvoiceOrder.amount)).sum ∧
    (⟨"S1", "A", "P", 1, 2, 2, 3, "6", 15, "N1", 8, 2⟩ : ReportRow).tax_amount =
      ((sale_cross [⟨"S1", "b", 15, 6, none⟩] [⟨"S1", "N1", 7, 8, some 2, "t", 9⟩]
        (report_row_key ⟨"S1", "A", "P", 1, 2, 2, 3, "6", 15, "N1", 8, 2⟩)).filterMap
        (fun jr => jr.invoice.bind InvoiceOrder.tax_amount)).sum :=
  overview_aggregation_formulas no_filter [⟨"S1", "A", "P", 1, 2, 2, 3⟩]
    [⟨"S1", "b", 15, 6, none⟩] [⟨"S1", "N1", 7, 8, some 2, "t", 9⟩]
    [⟨"S1", "A", "P", 1, 2, 2, 3, "6", 15, "N1", 8, 2⟩]
    (by decide) rfl
    ⟨"S1", "A", "P", 1, 2, 2, 3, "6", 15, "N1", 8, 2⟩ (by decide)

/-- C10: for every Sale with n matching Incomes and m matching Invoices
(n, m at least 1), on the unfiltered run with duplicate-free sale ids the
emitted row of that Sale sums each income amount once per matching invoice
(so m times the income sum), sums the invoice amounts and tax amounts once
per matching income (so n times the invoice sums), and joins the block of
invoice numbers once per matching income (so each number appears n times),
because the aggregation runs over the n by m cross-product rows of the two
left joins. -/
theorem overview_cross_product_multiplication (sales : List SalesOrder)
    (incomes : List IncomeOrder) (invoices : List InvoiceOrder) (s : SalesOrder)
    (hnd : (sales.map SalesOrder.id).Nodup) (hs : s ∈ sales)
    (hmi : incomes.filter (fun i => i.sales_order_id = s.id) ≠ [])
    (hmv : invoices.filter (fun w => w.sales_order_id = s.id) ≠ []) :
    ∃ rows, get_report_overview no_filter sales incomes invoices = Except.ok rows ∧
      rows.filter (fun x => x.id = s.id) =
        [make_report_row (sale_cross incomes invoices s) s] ∧
      (make_report_row (sale_cross incomes invoices s) s).amount_x =
        ((invoices.filter (fun w => w.sales_order_id = s.id)).length : Int) *
          ((incomes.filter (fun i => i.sales_order_id = s.id)).map IncomeOrder.amount).sum ∧
      (make_report_row (sale_cross incomes invoices s) s).amount_y =
        ((incomes.filter (fun i => i.sales_order_id = s.id)).length : Int) *
          ((invoices.filter (fun w => w.sales_order_id = s.id)).map InvoiceOrder.amount).sum ∧
      (make_report_row (sale_cross incomes invoices s) s).tax_amount =
        ((incomes.filter (fun i => i.sales_order_id = s.id)).length : Int) *
          ((invoices.filter (fun w => w.sales_order_id = s.id)).filterMap
            InvoiceOrder.tax_amount).sum ∧
      (make_report_row (sale_cross incomes invoices s) s).invoice_number =
        String.intercalate "\n"
          ((List.replicate (incomes.filter (fun i => i.sales_order_id = s.id)).length
            ((invoices.filter (fun w => w.sales_order_id = s.id)).map
              InvoiceOrder.invoice_number)).flatten) := by
  have hi : incomes ≠ [] := by
    intro hn
    rw [hn] at hmi
    simp at hmi
  have hv2 : invoices ≠ [] := by
    intro hn
    rw [hn] at hmv
    simp at hmv
  obtain ⟨rows, hok, hfilter⟩ := overview_row_for_sale hnd hs hi hv2
  have hcross : sale_cross incomes invoices s =
      (incomes.filter (fun i => i.sales_order_id = s.id)).flatMap
        (fun i => (invoices.filter (fun w => w.sales_order_id = s.id)).map
          (fun v => ⟨s, some i, some v⟩)) := by
    unfold sale_cross income_matches invoice_matches
    dsimp only
    rw [List.isEmpty_eq_false.mpr hmi, List.isEmpty_eq_false.mpr hmv]
    simp only [Bool.false_eq_true, if_false, List.flatMap_map, List.map_map]
    rfl
  refine ⟨rows, hok, hfilter, ?_, ?_, ?_, ?_⟩
  · show ((sale_cross incomes invoices s).filterMap
        (fun jr => jr.income.map IncomeOrder.amount)).sum = _
    rw [hcross, List.filterMap_flatMap]
    simp only [List.filterMap_map]
    have hinner : ∀ i : IncomeOrder,
        (List.filterMap ((fun jr : JoinedRow => jr.income.map IncomeOrder.amount) ∘
          (fun v : InvoiceOrder => (⟨s, some i, some v⟩ : JoinedRow)))
          (invoices.filter (fun w => w.sales_order_id = s.id))) =
        (invoices.filter (fun w => w.sales_order_id = s.id)).map (fun _ => i.amount) := by
      intro i
      rw [show ((fun jr : JoinedRow => jr.income.map IncomeOrder.amount) ∘
        (fun v : InvoiceOrder => (⟨s, some i, some v⟩ : JoinedRow))) =
        (some ∘ fun _ => i.amount) from rfl, List.filterMap_eq_map]
    simp only [hinner]
    exact sum_flatMap_section _ _ _
  · show ((sale_cross incomes invoices s).filterMap
        (fun jr => jr.invoice.map InvoiceOrder.amount)).sum = _
    rw [hcross, List.filterMap_flatMap]
    simp only [List.filterMap_map]
    have hinner : ∀ i : IncomeOrder,
        (List.filterMap ((fun jr : JoinedRow => jr.invoice.map InvoiceOrder.amount) ∘
          (fun v : InvoiceOrder => (⟨s, some i, some v⟩ : JoinedRow)))
          (invoices.filter (fun w => w.sales_order_id = s.id))) =
        (invoices.filter (fun w => w.sales_order_id = s.id)).map InvoiceOrder.amount := by
      intro i
      rw [show ((fun jr : JoinedRow => jr.invoice.map InvoiceOrder.amount) ∘
        (fun v : InvoiceOrder => (⟨s, some i, some v⟩ : JoinedRow))) =
        (some ∘ InvoiceOrder.amount) from rfl, List.filterMap_eq_map]
    simp only [hinner]
    exact sum_flatMap_const _ _
  · show ((sale_cross incomes invoices s).filterMap
        (fun jr => jr.invoice.bind InvoiceOrder.tax_amount)).sum = _
    rw [hcross, List.filterMap_flatMap]
    simp only [List.filterMap_map]
    have hinner : ∀ i : IncomeOrder,
        (List.filterMap ((fun jr : JoinedRow => jr.invoice.bind InvoiceOrder.tax_amount) ∘
          (fun v : InvoiceOrder => (⟨s, some i, some v⟩ : JoinedRow)))
          (invoices.filter (fun w => w.sales_order_id = s.id))) =
        (invoices.filter (fun w => w.sales_order_id = s.id)).filterMap
          InvoiceOrder.tax_amount := by
      intro i
      rfl
    simp only [hinner]
    exact sum_flatMap_const _ _
  · show String.intercalate "\n" ((sale_cross incomes invoices s).filterMap
        (fun jr => jr.invoice.map InvoiceOrder.invoice_number)) = _
    congr 1
    rw [hcross, List.filterMap_flatMap]
    simp only [List.filterMap_map]
    have hinner : ∀ i : IncomeOrder,
        (List.filterMap ((fun jr : JoinedRow => jr.invoice.map InvoiceOrder.invoice_number) ∘
          (fun v : InvoiceOrder => (⟨s, some i, some v⟩ : JoinedRow)))
          (invoices.filter (fun w => w.sales_order_id = s.id))) =
        (invoices.filter (fun w => w.sales_order_id = s.id)).map
          InvoiceOrder.invoice_number := by
      intro i
      rw [show ((fun jr : JoinedRow => jr.invoice.map InvoiceOrder.invoice_number) ∘
        (fun v : InvoiceOrder => (⟨s, some i, some v⟩ : JoinedRow))) =
        (some ∘ InvoiceOrder.invoice_number) from rfl, List.filterMap_eq_map]
    simp only [hinner]
    exact flatMap_const_eq_flatten _ _

/-- C10, witness: a concrete run with two matching incomes and two
matching invoices; the row for S1 shows every multiplicity. -/
theorem overview_cross_product_multiplication_witness :
    ((get_report_overview no_filter [⟨"S1", "A", "P", 1, 2, 2, 3⟩]
        [⟨"S1", "bank", 15, 6, none⟩, ⟨"S1", "bill", 5, 7, none⟩]
        [⟨"S1", "N1", 7, 8, some 2, "t", 9⟩, ⟨"S1", "N2", 7, 4, none, "t", 9⟩]).toOption.getD
        []).filter (fun x => x.id = (⟨"S1", "A", "P", 1, 2, 2, 3⟩ : SalesOrder).id) =
      [make_report_row (sale_cross [⟨"S1", "bank", 15, 6, none⟩, ⟨"S1", "bill", 5, 7, none⟩]
        [⟨"S1", "N1", 7, 8, some 2, "t", 9⟩, ⟨"S1", "N2", 7, 4, none, "t", 9⟩]
        ⟨"S1", "A", "P", 1, 2, 2, 3⟩) ⟨"S1", "A", "P", 1, 2, 2, 3⟩] ∧
    (make_report_row (sale_cross [⟨"S1", "bank", 15, 6, none⟩, ⟨"S1", "bill", 5, 7, none⟩]
        [⟨"S1", "N1", 7, 8, some 2, "t", 9⟩, ⟨"S1", "N2", 7, 4, none, "t", 9⟩]
        ⟨"S1", "A", "P", 1, 2, 2, 3⟩) ⟨"S1", "A", "P", 1, 2, 2, 3⟩).amount_x = 40 ∧
    (make_report_row (sale_cross [⟨"S1", "bank", 15, 6, none⟩, ⟨"S1", "bill", 5, 7, none⟩]
        [⟨"S1", "N1", 7, 8, some 2, "t", 9⟩, ⟨"S1", "N2", 7, 4, none, "t", 9⟩]
        ⟨"S1", "A", "P", 1, 2, 2, 3⟩) ⟨"S1", "A", "P", 1, 2, 2, 3⟩).amount_y = 24 ∧
    (make_report_row (sale_cross [⟨"S1", "bank", 15, 6, none⟩, ⟨"S1", "bill", 5, 7, none⟩]
        [⟨"S1", "N1", 7, 8, some 2, "t", 9⟩, ⟨"S1", "N2", 7, 4, none, "t", 9⟩]
        ⟨"S1", "A", "P", 1, 2, 2, 3⟩) ⟨"S1", "A", "P", 1, 2, 2, 3⟩).tax_amount = 4 ∧
    (make_report_row (sale_cross [⟨"S1", "bank", 15, 6, none⟩, ⟨"S1", "bill", 5, 7, none⟩]
        [⟨"S1", "N1", 7, 8, some 2, "t", 9⟩, ⟨"S1", "N2", 7, 4, none, "t", 9⟩]
        ⟨"S1", "A", "P", 1, 2, 2, 3⟩) ⟨"S1", "A", "P", 1, 2, 2, 3⟩).invoice_number =
      "N1\nN2\nN1\nN2" := by
  obtain ⟨rows, hok, hf, h1, h2, h3, h4⟩ := overview_cross_product_multiplication
    [⟨"S1", "A", "P", 1, 2, 2, 3⟩]
    [⟨"S1", "bank", 15, 6, none⟩, ⟨"S1", "bill", 5, 7, none⟩]
    [⟨"S1", "N1", 7, 8, some 2, "t", 9⟩, ⟨"S1", "N2", 7, 4, none, "t", 9⟩]
    ⟨"S1", "A", "P", 1, 2, 2, 3⟩ (by decide) (by decide) (by decide) (by decide)
  rw [hok]
  refine ⟨hf, ?_, ?_, ?_, ?_⟩
  · rw [h1]; rfl
  · rw [h2]; rfl
  · rw [h3]; rfl
  · rw [h4]; rfl

end ReportPipeline
